import Mathlib

/-!
Verification of the FarmaCompara client core (Zona-Medicamentos-Scraper-Front).

The repository contains two variants of the same component:
* `src/src/App.tsx` — embedded below in namespace `SrcApp`;
* `src/unnamed/part_000` — embedded below in namespace `Part000`.

The two variants share the data model, the sort comparator and most of the
filter logic, but differ in

* price extraction used by the `maxPrice` filter
  (`parseFloat` of the string with its first `S/\s*` match removed, `|| 0`, in `App.tsx`
  versus `s.match(/\d+(\.\d+)?/)` + `parseFloat` in `part_000`),
* keyword validation (`!keyword` versus `!keyword.trim()`),
* the fallback for a missing `response.data.data` field, and
* the error classification in the `catch` branch.

JavaScript numbers are modelled by `JSNum` (NaN, ±Infinity or an exact
rational); `parseFloat` is modelled exactly on the decimal/Infinity grammar,
with rationals in place of binary doubles (none of the verified properties
depends on rounding).  `\d` in the regexes is ASCII `0`-`9`, i.e.
`isDigitChar`.  `toLowerCase` is modelled by `Char.toLower` (ASCII case
folding; the claims only involve ASCII data).
-/

/-- The whitespace class used by JavaScript (`\s` in regexes, `String.trim`,
and the leading-whitespace skip of `parseFloat`): ASCII whitespace, NBSP,
the Unicode space separators, line/paragraph separators and the BOM. -/
def jsSpace (c : Char) : Bool :=
  decide (c.toNat = 9) || decide (c.toNat = 10) || decide (c.toNat = 11) ||
  decide (c.toNat = 12) || decide (c.toNat = 13) || decide (c.toNat = 32) ||
  decide (c.toNat = 0xa0) || decide (c.toNat = 0x1680) ||
  (decide (0x2000 <= c.toNat) && decide (c.toNat <= 0x200a)) ||
  decide (c.toNat = 0x2028) || decide (c.toNat = 0x2029) ||
  decide (c.toNat = 0x202f) || decide (c.toNat = 0x205f) ||
  decide (c.toNat = 0x3000) || decide (c.toNat = 0xfeff)

/-- The regex class `\\d`: the ASCII digits `0`-`9` (stated on codepoints). -/
def isDigitChar (c : Char) : Bool :=
  decide (48 <= c.toNat) && decide (c.toNat <= 57)

/-- JavaScript `String.prototype.trim`. -/
def jsTrim (s : String) : String :=
  ⟨((s.data.dropWhile jsSpace).reverse.dropWhile jsSpace).reverse⟩

/-- JavaScript `String.prototype.toLowerCase` (ASCII fragment). -/
def jsToLower (s : String) : String :=
  ⟨s.data.map Char.toLower⟩

/-- `needle` is a leading block of `hay` (helper for `includes`). -/
def isPreOf : List Char → List Char → Bool
  | [], _ => true
  | _ :: _, [] => false
  | a :: as, b :: bs => a == b && isPreOf as bs

/-- `needle` occurs contiguously inside `hay` (helper for `includes`). -/
def isSubOf : List Char → List Char → Bool
  | needle, [] => needle.isEmpty
  | needle, c :: t => isPreOf needle (c :: t) || isSubOf needle t

/-- JavaScript `hay.includes(needle)`. -/
def jsIncludes (hay needle : String) : Bool :=
  isSubOf needle.data hay.data

/-- A JavaScript number as far as this client manipulates one: NaN, an
infinity, or an exact value (ℚ in place of a binary double; the client only
parses and compares, so rounding is irrelevant to every property below). -/
inductive JSNum where
  | nan
  | posInf
  | negInf
  | num (q : ℚ)
deriving DecidableEq

/-- Value of a digit string, most significant first. -/
def natOfDigits (ds : List Char) : ℕ :=
  ds.foldl (fun a c => 10 * a + (c.toNat - 48)) 0

/-- Value of a digit string read as a fractional part. -/
def fracOfDigits (ds : List Char) : ℚ :=
  (natOfDigits ds : ℚ) / 10 ^ ds.length

/-- Value of a decimal token with integer part `ip` and fractional part `fp`. -/
def tokenVal (ip fp : List Char) : ℚ :=
  (natOfDigits ip : ℚ) + fracOfDigits fp

/-- Signed exponent part of the `parseFloat` grammar, applied to `q`. -/
def expSigned (q : ℚ) (cs : List Char) : ℚ :=
  match cs with
  | '-' :: rest =>
    if (rest.takeWhile isDigitChar).isEmpty then q
    else q / 10 ^ natOfDigits (rest.takeWhile isDigitChar)
  | '+' :: rest =>
    if (rest.takeWhile isDigitChar).isEmpty then q
    else q * 10 ^ natOfDigits (rest.takeWhile isDigitChar)
  | _ =>
    if (cs.takeWhile isDigitChar).isEmpty then q
    else q * 10 ^ natOfDigits (cs.takeWhile isDigitChar)

/-- Optional `e`/`E` exponent part of the `parseFloat` grammar, applied to `q`. -/
def expApply (q : ℚ) (cs : List Char) : ℚ :=
  match cs with
  | 'e' :: rest => expSigned q rest
  | 'E' :: rest => expSigned q rest
  | _ => q

/-- Unsigned part of `parseFloat`: `Infinity`, `digits[.digits][exp]` or
`.digits[exp]`, as the longest valid prefix; anything else is NaN. -/
def parseUnsigned (cs : List Char) : JSNum :=
  if cs.take 8 = "Infinity".data then .posInf
  else
    let ds := cs.takeWhile isDigitChar
    let rest := cs.dropWhile isDigitChar
    if ds.isEmpty then
      match rest with
      | '.' :: r2 =>
        let fs := r2.takeWhile isDigitChar
        if fs.isEmpty then .nan
        else .num (expApply (fracOfDigits fs) (r2.dropWhile isDigitChar))
      | _ => .nan
    else
      match rest with
      | '.' :: r2 =>
        let fs := r2.takeWhile isDigitChar
        .num (expApply (tokenVal ds fs) (r2.dropWhile isDigitChar))
      | _ => .num (expApply (natOfDigits ds : ℚ) rest)

/-- Negation of a JavaScript number. -/
def jsNumNeg : JSNum → JSNum
  | .nan => .nan
  | .posInf => .negInf
  | .negInf => .posInf
  | .num q => .num (-q)

/-- JavaScript `parseFloat`: skip whitespace, optional sign, then the longest
`StrDecimalLiteral` prefix; NaN when there is none. -/
def jsParseFloat (cs : List Char) : JSNum :=
  match cs.dropWhile jsSpace with
  | [] => .nan
  | c :: rest =>
    if c = '-' then jsNumNeg (parseUnsigned rest)
    else if c = '+' then parseUnsigned rest
    else parseUnsigned (c :: rest)

/-- JavaScript `s.replace(re, '')` for the pattern `S` `/` `\s*` (no `g`
flag): delete the first occurrence of `S/` together with the following
whitespace run. -/
def stripSol : List Char → List Char
  | [] => []
  | 'S' :: '/' :: rest => rest.dropWhile jsSpace
  | c :: rest => c :: stripSol rest

/-- JavaScript `x || 0` on a number: NaN (and ±0) fall back to 0. -/
def jsOr0 : JSNum → JSNum
  | .nan => .num 0
  | x => x

/-- JavaScript `x > b` for a number `x` and a finite bound `b`. -/
def jsGt : JSNum → ℚ → Bool
  | .nan, _ => false
  | .posInf, _ => true
  | .negInf, _ => false
  | .num q, b => decide (b < q)

/-- Rank of a JavaScript number for the sort comparator `a - b`:
lexicographic on (infinity class, finite value). -/
def jsNumVal : JSNum → ℤ × ℚ
  | .negInf => (-1, 0)
  | .nan => (0, 0)
  | .num q => (0, q)
  | .posInf => (1, 0)

/-- Lexicographic comparison of ranks. -/
def pairLe (x y : ℤ × ℚ) : Bool :=
  decide (x.1 < y.1) || (decide (x.1 = y.1) && decide (x.2 ≤ y.2))

/-- The total preorder on JavaScript numbers realised by the comparator
`(a, b) => a - b` of a stable `Array.prototype.sort`. -/
def jsNumLe (a b : JSNum) : Bool :=
  pairLe (jsNumVal a) (jsNumVal b)

/-- The `Producto` record received from the backend (`interface Producto`). -/
structure Producto where
  Producto : String
  Precio_Oferta : String
  Precio_Regular : String
  Imagen_URL : String
  Enlace : String
  Farmacia : String
deriving DecidableEq

/-- The user-controlled filter criteria (the four filter state hooks). -/
structure Criteria where
  nameFilter : String
  pharmacyFilter : String
  priceFilter : ℚ
  offersFilter : Bool
deriving DecidableEq

/-- `product.Precio_Regular !== "No disponible"` — the `hasOffer` constant. -/
def hasOffer (p : Producto) : Bool :=
  p.Precio_Regular != "No disponible"

/-- `parseFloat` of `s` with its first `S/\s*` match removed, then `|| 0`: the price
extraction of the `App.tsx` filter and of the sort comparator of both
variants. -/
def replacePrice (s : String) : JSNum :=
  jsOr0 (jsParseFloat (stripSol s.data))

/-- `priceMatch = s.match(/\d+(\.\d+)?/); priceMatch ? parseFloat(priceMatch[0]) : 0`:
the price extraction of the `part_000` filter. -/
def matchPrice (s : String) : JSNum :=
  match jsMatchNum s.data with
  | some tok => jsParseFloat tok
  | none => .num 0
where
  /-- The token matched by `/\d+(\.\d+)?/` starting at the head of `cs`
  (which is a digit): maximal digit run, then optionally `.` plus a maximal
  nonempty digit run. -/
  tokenAt (cs : List Char) : List Char :=
    let ds := cs.takeWhile isDigitChar
    match cs.dropWhile isDigitChar with
    | '.' :: rest =>
      let fs := rest.takeWhile isDigitChar
      if fs.isEmpty then ds else ds ++ '.' :: fs
    | _ => ds
  /-- `s.match(/\d+(\.\d+)?/)`: the leftmost match, if any. -/
  jsMatchNum : List Char → Option (List Char)
    | [] => none
    | c :: cs => if isDigitChar c then some (tokenAt (c :: cs)) else jsMatchNum cs

/-- The sort key recomputed inside `.sort((a, b) => ...)` — both variants use
the `replace`-based extraction there. -/
def sortKey (p : Producto) : JSNum :=
  replacePrice p.Precio_Oferta

/-- The comparator `(a, b) => priceA - priceB` as a total preorder on
products. -/
def prodLe (a b : Producto) : Bool :=
  jsNumLe (sortKey a) (sortKey b)

/-- The fetch/search UI state: `productos` (an `Option` because `App.tsx` can
store JavaScript `undefined` in it), `isLoading` and `error`. -/
structure AppState where
  productos : Option (List Producto)
  isLoading : Bool
  error : Option String
deriving DecidableEq

/-- The axios error observed in the `catch` branch: its `code` and, when the
server answered at all, the `response.status`. -/
structure AxiosErr where
  code : Option String
  responseStatus : Option Nat
deriving DecidableEq

/-- How the awaited `axios.get` completes: a success body whose `data` field
may be absent, or an error. -/
inductive FetchOutcome where
  | success (data : Option (List Producto))
  | failure (e : AxiosErr)
deriving DecidableEq

/-- The state written synchronously before the network call starts:
`setIsLoading(true); setProductos([]); setError(null)`. -/
def startFetch (s : AppState) : AppState :=
  { s with isLoading := true, productos := some [], error := none }

/-- The initial state of the component (no search performed yet). -/
def state0 : AppState :=
  { productos := some [], isLoading := false, error := none }

namespace SrcApp

/-- The filter predicate of `getFilteredProducts` in `src/src/App.tsx`. -/
def passesFilters (c : Criteria) (p : Producto) : Bool :=
  let price := replacePrice p.Precio_Oferta
  if c.nameFilter != "" && !(jsIncludes (jsToLower p.Producto) (jsToLower c.nameFilter)) then false
  else if c.pharmacyFilter != "" && p.Farmacia != c.pharmacyFilter then false
  else if jsGt price c.priceFilter then false
  else if c.offersFilter && !(hasOffer p) then false
  else true

/-- `getFilteredProducts` of `src/src/App.tsx`: `productos.filter(...).sort(...)`
with the stable ECMAScript sort under the comparator `priceA - priceB`. -/
def getFilteredProducts (productos : List Producto) (c : Criteria) : List Producto :=
  (productos.filter (passesFilters c)).mergeSort prodLe

/-- The error message chosen in the `catch` branch of `App.tsx`. -/
def errorMsg (e : AxiosErr) : String :=
  if e.code = some "ECONNABORTED" then
    "La búsqueda tardó demasiado y fue cancelada. Intenta de nuevo."
  else
    "Error al cargar los datos. Revisa la consola."

/-- The state updates performed once the awaited call completes, in `App.tsx`:
on success `setProductos(response.data.data)` (which may store `undefined`),
on error the classified message; both clear `isLoading`. -/
def finishFetch (s : AppState) (o : FetchOutcome) : AppState :=
  match o with
  | .success d => { s with productos := d, isLoading := false }
  | .failure e => { s with error := some (errorMsg e), isLoading := false }

/-- `handleSubmit` of `App.tsx` as a function of the keyword, the current
state and the outcome the single `axios.get` would have: the resulting state
together with the number of network requests issued (`0` when validation
rejects, else `1`; the code contains no retry). Validation is `!keyword`,
i.e. only the empty string is rejected. -/
def handleSubmit (keyword : String) (s : AppState) (o : FetchOutcome) : AppState × ℕ :=
  if keyword = "" then (s, 0)
  else (finishFetch (startFetch s) o, 1)

end SrcApp

namespace Part000

/-- The filter predicate of `getFilteredProducts` in `src/unnamed/part_000`:
identical to the `App.tsx` one except that the price bound uses the
`match`-based extraction. -/
def passesFilters (c : Criteria) (p : Producto) : Bool :=
  let price := matchPrice p.Precio_Oferta
  if c.nameFilter != "" && !(jsIncludes (jsToLower p.Producto) (jsToLower c.nameFilter)) then false
  else if c.pharmacyFilter != "" && p.Farmacia != c.pharmacyFilter then false
  else if jsGt price c.priceFilter then false
  else if c.offersFilter && !(hasOffer p) then false
  else true

/-- `getFilteredProducts` of `src/unnamed/part_000`; the sort comparator is
the same `replace`-based one as in `App.tsx`. -/
def getFilteredProducts (productos : List Producto) (c : Criteria) : List Producto :=
  (productos.filter (passesFilters c)).mergeSort prodLe

/-- The error message chosen in the `catch` branch of `part_000`:
timeout, then server status, then connectivity. -/
def errorMsg (e : AxiosErr) : String :=
  if e.code = some "ECONNABORTED" then
    "La búsqueda tardó demasiado y fue cancelada (Timeout). Intenta de nuevo."
  else
    match e.responseStatus with
    | some st => "Error del servidor (" ++ toString st ++ "). Intenta de nuevo más tarde."
    | none => "No se pudo conectar al backend. El servicio puede estar inactivo o tardando mucho."

/-- The completion updates in `part_000`: on success
`setProductos(response.data.data || [])`, on error the classified message;
both clear `isLoading`. -/
def finishFetch (s : AppState) (o : FetchOutcome) : AppState :=
  match o with
  | .success d => { s with productos := some (d.getD []), isLoading := false }
  | .failure e => { s with error := some (errorMsg e), isLoading := false }

/-- `handleSubmit` of `part_000`: validation is `!keyword.trim()`, so empty
and all-whitespace keywords are rejected synchronously with no state change
and no request. -/
def handleSubmit (keyword : String) (s : AppState) (o : FetchOutcome) : AppState × ℕ :=
  if jsTrim keyword = "" then (s, 0)
  else (finishFetch (startFetch s) o, 1)

end Part000

/-- Modelled from the spec: "derive a comparable price from offerPrice by
extracting its first embedded numeric token (integer or decimal); a product
whose offerPrice contains no numeric token yields price 0".  Stated
independently of the code, for comparison with `matchPrice` and
`replacePrice`. -/
def specExtractedPrice (s : String) : ℚ :=
  match s.data.dropWhile (fun c => !isDigitChar c) with
  | [] => 0
  | ds =>
    let ip := ds.takeWhile isDigitChar
    match ds.dropWhile isDigitChar with
    | '.' :: r => tokenVal ip (r.takeWhile isDigitChar)
    | _ => tokenVal ip []

/-- A sample product (image and link fields are irrelevant to the core). -/
def mkProducto (n o r : String) : Producto :=
  { Producto := n, Precio_Oferta := o, Precio_Regular := r,
    Imagen_URL := "img", Enlace := n, Farmacia := "Inkafarma" }

/-- The criteria the UI starts from: no name filter, all pharmacies,
maximum price 300, offers not required. -/
def cDefault : Criteria :=
  { nameFilter := "", pharmacyFilter := "", priceFilter := 300, offersFilter := false }

/-- Default criteria with the maximum price lowered to 3. -/
def cMax3 : Criteria :=
  { cDefault with priceFilter := 3 }

/-- Default criteria with "solo ofertas" checked. -/
def cOffers : Criteria :=
  { cDefault with offersFilter := true }

/-- Offer price text whose first numeric token (5) is not reachable by
`parseFloat` after the `S/` strip. -/
def pAntes : Producto := mkProducto "Crema" "Antes 5" "S/ 20"

/-- Offer price text whose `match`-extracted price is 20 but whose
`replace`-based sort key is 0. -/
def pDesde : Producto := mkProducto "Desodorante" "Desde S/ 20" "S/ 25"

/-- A plain `S/ 10` product. -/
def pDiez : Producto := mkProducto "Jabon" "S/ 10" "S/ 12"

/-- Product priced `S/ 30`, no offer. -/
def p30 : Producto := mkProducto "A" "S/ 30" "No disponible"

/-- Product priced `S/ 10`, no offer. -/
def p10 : Producto := mkProducto "B" "S/ 10" "No disponible"

/-- Product priced `S/ 20`, no offer. -/
def p20 : Producto := mkProducto "C" "S/ 20" "No disponible"

/-- A product carrying the `No disponible` sentinel. -/
def pSent : Producto := mkProducto "S" "S/ 10" "No disponible"

/-! ## Auxiliary lemmas -/

lemma jsSpace_eq_false {c : Char} (h : isDigitChar c = true) : jsSpace c = false := by
  simp only [isDigitChar, Bool.and_eq_true, decide_eq_true_eq] at h
  simp only [jsSpace, Bool.or_eq_false_iff, Bool.and_eq_false_iff, decide_eq_false_iff_not]
  omega

lemma digit_ne {c : Char} (h : isDigitChar c = true) {d : Char} (hd : isDigitChar d = false) :
    c ≠ d := by
  rintro rfl
  rw [h] at hd
  cases hd

lemma expApply_nil (q : ℚ) : expApply q [] = q := by
  simp [expApply]

lemma tokenVal_nil (ds : List Char) : tokenVal ds [] = (natOfDigits ds : ℚ) := by
  simp [tokenVal, fracOfDigits, natOfDigits]

/-- `parseFloat` of a nonempty all-digit string is its numeric value. -/
lemma parse_digit_list {ds : List Char} (hne : ds ≠ [])
    (hall : ∀ x ∈ ds, isDigitChar x = true) :
    jsParseFloat ds = .num (natOfDigits ds) := by
  cases ds with
  | nil => exact absurd rfl hne
  | cons d t =>
    have hd : isDigitChar d = true := hall d (List.mem_cons_self d t)
    rw [jsParseFloat, List.dropWhile_cons, jsSpace_eq_false hd]
    simp only [Bool.false_eq_true, if_false,
      if_neg (digit_ne hd (show isDigitChar '-' = false by decide)),
      if_neg (digit_ne hd (show isDigitChar '+' = false by decide))]
    rw [parseUnsigned]
    have hinf : ¬ ((d :: t).take 8 = "Infinity".data) := by
      intro heq
      rw [List.take_succ_cons, show "Infinity".data = 'I' :: "nfinity".data from rfl] at heq
      exact digit_ne hd (by decide) (List.cons.inj heq).1
    rw [if_neg hinf]
    rw [List.takeWhile_eq_self_iff.mpr hall, List.dropWhile_eq_nil_iff.mpr hall]
    simp [expApply_nil]

/-- `parseFloat` of `digits ++ "." ++ digits` is the decimal value. -/
lemma parse_digit_dot {ds fs : List Char} (hne : ds ≠ [])
    (hall : ∀ x ∈ ds, isDigitChar x = true)
    (hfall : ∀ x ∈ fs, isDigitChar x = true) :
    jsParseFloat (ds ++ '.' :: fs) = .num (tokenVal ds fs) := by
  cases ds with
  | nil => exact absurd rfl hne
  | cons d t =>
    have hd : isDigitChar d = true := hall d (List.mem_cons_self d t)
    rw [List.cons_append, jsParseFloat, List.dropWhile_cons, jsSpace_eq_false hd]
    simp only [Bool.false_eq_true, if_false,
      if_neg (digit_ne hd (show isDigitChar '-' = false by decide)),
      if_neg (digit_ne hd (show isDigitChar '+' = false by decide))]
    rw [parseUnsigned]
    have hinf : ¬ ((d :: (t ++ '.' :: fs)).take 8 = "Infinity".data) := by
      intro heq
      rw [List.take_succ_cons, show "Infinity".data = 'I' :: "nfinity".data from rfl] at heq
      exact digit_ne hd (by decide) (List.cons.inj heq).1
    rw [if_neg hinf]
    rw [show d :: (t ++ '.' :: fs) = (d :: t) ++ '.' :: fs from rfl]
    rw [List.takeWhile_append_of_pos hall, List.dropWhile_append_of_pos hall]
    rw [List.takeWhile_cons, List.dropWhile_cons]
    simp only [show isDigitChar '.' = false by decide, Bool.false_eq_true, if_false]
    simp only [List.append_nil, List.isEmpty_cons, Bool.false_eq_true, if_false]
    rw [List.takeWhile_eq_self_iff.mpr hfall, List.dropWhile_eq_nil_iff.mpr hfall]
    simp [expApply_nil]

/-- The head left by dropping all non-digits is a digit. -/
lemma dropWhile_not_head {d : Char} {t : List Char} :
    ∀ l : List Char, l.dropWhile (fun c => !isDigitChar c) = d :: t → isDigitChar d = true := by
  intro l
  induction l with
  | nil => simp
  | cons c cs ih =>
    intro h
    rw [List.dropWhile_cons] at h
    by_cases hc : isDigitChar c = true
    · simp [hc] at h
      obtain ⟨rfl, rfl⟩ := h
      exact hc
    · simp [hc] at h
      exact ih h

/-- The scan of `/\d+(\.\d+)?/` matches exactly at the first digit. -/
lemma jsMatchNum_eq (l : List Char) :
    matchPrice.jsMatchNum l =
      match l.dropWhile (fun c => !isDigitChar c) with
      | [] => none
      | ds => some (matchPrice.tokenAt ds) := by
  induction l with
  | nil => simp [matchPrice.jsMatchNum]
  | cons c cs ih =>
    rw [matchPrice.jsMatchNum, List.dropWhile_cons]
    by_cases hc : isDigitChar c = true
    · simp [hc]
    · simp [hc, ih]

/-- The `part_000` filter extraction computes exactly the spec's
"value of the first embedded numeric token, 0 when none". -/
lemma matchPrice_eq_spec (s : String) : matchPrice s = .num (specExtractedPrice s) := by
  rw [matchPrice, specExtractedPrice, jsMatchNum_eq]
  cases hds : s.data.dropWhile (fun c => !isDigitChar c) with
  | nil => rfl
  | cons d t =>
    have hd : isDigitChar d = true := dropWhile_not_head _ hds
    simp only []
    rw [matchPrice.tokenAt]
    have hall : ∀ x ∈ (d :: t).takeWhile isDigitChar, isDigitChar x = true :=
      fun x hx => List.mem_takeWhile_imp hx
    have hne : (d :: t).takeWhile isDigitChar ≠ [] := by
      rw [List.takeWhile_cons, hd]
      simp
    cases hrest : (d :: t).dropWhile isDigitChar with
    | nil =>
      simp only []
      rw [parse_digit_list hne hall, tokenVal_nil]
    | cons r0 r1 =>
      by_cases hr0 : r0 = '.'
      · subst hr0
        simp only []
        by_cases hfs : (r1.takeWhile isDigitChar).isEmpty = true
        · rw [if_pos hfs]
          rw [List.isEmpty_iff] at hfs
          rw [parse_digit_list hne hall, hfs, tokenVal_nil]
        · rw [if_neg hfs]
          rw [parse_digit_dot hne hall (fun x hx => List.mem_takeWhile_imp hx)]
      · simp only []
        split
        next heq => exact absurd (List.cons.inj heq).1 hr0
        next => rw [parse_digit_list hne hall, tokenVal_nil]

/-- The comparator order is transitive. -/
lemma prodLe_trans (a b c : Producto) (h1 : prodLe a b) (h2 : prodLe b c) : prodLe a c := by
  simp only [prodLe, jsNumLe, pairLe, Bool.or_eq_true, Bool.and_eq_true, decide_eq_true_eq] at *
  rcases h1 with h1 | ⟨h1, h1'⟩ <;> rcases h2 with h2 | ⟨h2, h2'⟩
  · exact Or.inl (lt_trans h1 h2)
  · exact Or.inl (h2 ▸ h1)
  · exact Or.inl (h1 ▸ h2)
  · exact Or.inr ⟨h1.trans h2, le_trans h1' h2'⟩

/-- The comparator order is total. -/
lemma prodLe_total (a b : Producto) : prodLe a b || prodLe b a := by
  simp only [prodLe, jsNumLe, pairLe, Bool.or_eq_true, Bool.and_eq_true, decide_eq_true_eq]
  rcases lt_trichotomy (jsNumVal (sortKey a)).1 (jsNumVal (sortKey b)).1 with h | h | h
  · exact Or.inl (Or.inl h)
  · rcases le_total (jsNumVal (sortKey a)).2 (jsNumVal (sortKey b)).2 with h' | h'
    · exact Or.inl (Or.inr ⟨h, h'⟩)
    · exact Or.inr (Or.inr ⟨h.symm, h'⟩)
  · exact Or.inr (Or.inl h)

lemma jsNumLe_refl (k : JSNum) : jsNumLe k k = true := by
  simp [jsNumLe, pairLe]

/-- The `App.tsx` filter predicate, as a conjunction of the four
active-filter conditions. -/
lemma passes_iff_app (c : Criteria) (p : Producto) :
    SrcApp.passesFilters c p = true ↔
      (c.nameFilter ≠ "" → jsIncludes (jsToLower p.Producto) (jsToLower c.nameFilter) = true) ∧
      (c.pharmacyFilter ≠ "" → p.Farmacia = c.pharmacyFilter) ∧
      jsGt (replacePrice p.Precio_Oferta) c.priceFilter = false ∧
      (c.offersFilter = true → hasOffer p = true) := by
  rw [SrcApp.passesFilters]
  by_cases h1 : c.nameFilter = "" <;>
    by_cases h2 : jsIncludes (jsToLower p.Producto) (jsToLower c.nameFilter) = true <;>
    by_cases h3 : c.pharmacyFilter = "" <;>
    by_cases h4 : p.Farmacia = c.pharmacyFilter <;>
    by_cases h5 : jsGt (replacePrice p.Precio_Oferta) c.priceFilter = true <;>
    by_cases h6 : c.offersFilter = true <;>
    by_cases h7 : hasOffer p = true <;>
    simp_all [bne_iff_ne]

/-- The `part_000` filter predicate, as a conjunction of the four
active-filter conditions. -/
lemma passes_iff_v2 (c : Criteria) (p : Producto) :
    Part000.passesFilters c p = true ↔
      (c.nameFilter ≠ "" → jsIncludes (jsToLower p.Producto) (jsToLower c.nameFilter) = true) ∧
      (c.pharmacyFilter ≠ "" → p.Farmacia = c.pharmacyFilter) ∧
      jsGt (matchPrice p.Precio_Oferta) c.priceFilter = false ∧
      (c.offersFilter = true → hasOffer p = true) := by
  rw [Part000.passesFilters]
  by_cases h1 : c.nameFilter = "" <;>
    by_cases h2 : jsIncludes (jsToLower p.Producto) (jsToLower c.nameFilter) = true <;>
    by_cases h3 : c.pharmacyFilter = "" <;>
    by_cases h4 : p.Farmacia = c.pharmacyFilter <;>
    by_cases h5 : jsGt (matchPrice p.Precio_Oferta) c.priceFilter = true <;>
    by_cases h6 : c.offersFilter = true <;>
    by_cases h7 : hasOffer p = true <;>
    simp_all [bne_iff_ne]

/-- Stability of the projection: for each sort key the output lists exactly
the passing raw-list elements with that key, in raw-list order. -/
lemma stable_filter_mergeSort (pred : Producto → Bool) (l : List Producto) (k : JSNum) :
    ((l.filter pred).mergeSort prodLe).filter (fun p => decide (sortKey p = k)) =
      l.filter (fun p => pred p && decide (sortKey p = k)) := by
  have hff : (l.filter pred).filter (fun p => decide (sortKey p = k)) =
      l.filter (fun p => pred p && decide (sortKey p = k)) := by
    rw [List.filter_filter]
    congr 1
    funext a
    rw [Bool.and_comm]
  rw [← hff]
  set m := l.filter pred with hm
  set c0 := m.filter (fun p => decide (sortKey p = k)) with hc0
  have hkey : ∀ p ∈ c0, sortKey p = k := by
    intro p hp
    have := (List.mem_filter.mp hp).2
    simpa using this
  have hpw : c0.Pairwise (fun a b => prodLe a b = true) := by
    apply List.pairwise_of_forall_mem_list
    intro a ha b hb
    show prodLe a b = true
    rw [prodLe, hkey a ha, hkey b hb]
    exact jsNumLe_refl k
  have hsub : c0.Sublist (m.mergeSort prodLe) :=
    List.sublist_mergeSort prodLe_trans prodLe_total hpw (List.filter_sublist _)
  have hperm : List.Perm ((m.mergeSort prodLe).filter (fun p => decide (sortKey p = k))) c0 :=
    (List.mergeSort_perm m prodLe).filter _
  have hc0self : c0.filter (fun p => decide (sortKey p = k)) = c0 := by
    apply List.filter_eq_self.mpr
    intro a ha
    simp [hkey a ha]
  have hsub2 : c0.Sublist ((m.mergeSort prodLe).filter (fun p => decide (sortKey p = k))) := by
    have := hsub.filter (fun p => decide (sortKey p = k))
    rwa [hc0self] at this
  exact (hsub2.eq_of_length hperm.length_eq.symm).symm

/-- Filtering then stable-sorting is idempotent as a whole. -/
lemma proj_idem (pred : Producto → Bool) (l : List Producto) :
    (((l.filter pred).mergeSort prodLe).filter pred).mergeSort prodLe =
      (l.filter pred).mergeSort prodLe := by
  have h1 : ((l.filter pred).mergeSort prodLe).filter pred = (l.filter pred).mergeSort prodLe := by
    apply List.filter_eq_self.mpr
    intro a ha
    exact (List.mem_filter.mp (List.mem_mergeSort.mp ha)).2
  rw [h1]
  exact List.mergeSort_of_sorted (List.sorted_mergeSort prodLe_trans prodLe_total _)

/-- The output of filter-then-sort never holds more copies of an element
than the input. -/
lemma proj_count (pred : Producto → Bool) (l : List Producto) (p : Producto) :
    ((l.filter pred).mergeSort prodLe).count p ≤ l.count p := by
  rw [(List.mergeSort_perm _ _).count_eq]
  exact (List.filter_sublist _).count_le p

/-! ## Claim theorems -/

/-- Claim C1, counterexample: in `src/src/App.tsx` the projector's extracted
price for offerPrice `"Antes 5"` is 0, not its first embedded numeric token
5: with maxPrice 3 the product is kept, while a price of 5 would have to be
excluded. -/
theorem C1_counterexample :
    SrcApp.getFilteredProducts [pAntes] cMax3 = [pAntes] ∧
    specExtractedPrice pAntes.Precio_Oferta = 5 ∧
    replacePrice pAntes.Precio_Oferta = JSNum.num 0 := by
  refine ⟨?_, ?_, ?_⟩
  · simp +decide [SrcApp.getFilteredProducts, SrcApp.passesFilters, List.mergeSort,
      prodLe, sortKey, replacePrice, stripSol, jsOr0, jsParseFloat, parseUnsigned,
      expApply, expSigned, tokenVal, natOfDigits, fracOfDigits, jsSpace, isDigitChar,
      jsGt, jsIncludes, isSubOf, isPreOf, jsToLower, hasOffer, pAntes, mkProducto,
      cMax3, cDefault, jsNumLe, jsNumVal, pairLe]
  · simp +decide [specExtractedPrice, tokenVal, natOfDigits, fracOfDigits, isDigitChar,
      pAntes, mkProducto]
  · simp +decide [replacePrice, stripSol, jsOr0, jsParseFloat, parseUnsigned, expApply,
      expSigned, tokenVal, natOfDigits, fracOfDigits, jsSpace, isDigitChar, pAntes,
      mkProducto]

/-- Claim C1 (amended): the `part_000` filter extraction is exactly the first
embedded numeric token of offerPrice (0 when none); the `App.tsx` filter
extraction (also the sort key of both variants) is instead
`parseFloat` of offerPrice with its first `S/`-plus-spaces removed, 0 on
parse failure.  Both yield the documented examples
`"Consultar" ↦ 0`, `"S/ 12.50" ↦ 12.50`, `"S/12" ↦ 12`. -/
theorem C1_extraction :
    (∀ s : String, matchPrice s = JSNum.num (specExtractedPrice s)) ∧
    replacePrice "Consultar" = JSNum.num 0 ∧
    replacePrice "S/ 12.50" = JSNum.num (25 / 2) ∧
    replacePrice "S/12" = JSNum.num 12 ∧
    matchPrice "Consultar" = JSNum.num 0 ∧
    matchPrice "S/ 12.50" = JSNum.num (25 / 2) ∧
    matchPrice "S/12" = JSNum.num 12 := by
  refine ⟨matchPrice_eq_spec, ?_, ?_, ?_, ?_, ?_, ?_⟩ <;>
    simp +decide [replacePrice, matchPrice, matchPrice.jsMatchNum, matchPrice.tokenAt,
      stripSol, jsOr0, jsParseFloat, parseUnsigned, expApply, expSigned, tokenVal,
      natOfDigits, fracOfDigits, jsSpace, isDigitChar] <;>
    norm_num

/-- Claim C2, counterexample: in `src/unnamed/part_000` the sort key is not
the extraction used by the maxPrice filter.  With raw list
`[pDesde, pDiez]` (offer prices `"Desde S/ 20"`, `"S/ 10"`) and default
criteria, the filter extraction gives prices 20 and 10, yet the output keeps
`pDesde` (sort key 0) before `pDiez` (sort key 10) — not ascending in the
step-1 extracted price. -/
theorem C2_counterexample :
    Part000.getFilteredProducts [pDesde, pDiez] cDefault = [pDesde, pDiez] ∧
    matchPrice pDesde.Precio_Oferta = JSNum.num 20 ∧
    matchPrice pDiez.Precio_Oferta = JSNum.num 10 := by
  refine ⟨?_, ?_, ?_⟩ <;>
    simp +decide [Part000.getFilteredProducts, Part000.passesFilters, List.mergeSort,
      List.merge, List.splitInTwo, List.splitAt, List.splitAt.go, prodLe, sortKey,
      replacePrice, matchPrice, matchPrice.jsMatchNum, matchPrice.tokenAt, stripSol,
      jsOr0, jsParseFloat, parseUnsigned, expApply, expSigned, tokenVal, natOfDigits,
      fracOfDigits, jsSpace, isDigitChar, jsNumLe, jsNumVal, pairLe, jsGt, jsIncludes,
      isSubOf, isPreOf, jsToLower, hasOffer, pDesde, pDiez, mkProducto, cDefault]

/-- Claim C2 (amended): both projectors sort the filtered set ascending by
the `replace`-based sort key (`parseFloat` of offerPrice with the first
`S/`-plus-spaces removed, 0 fallback), which in `App.tsx` coincides with the
extraction used by the maxPrice filter, while the `part_000` filter uses the
`match`-based extraction; the sort is stable: for every key value the output
retains the raw-list order of the passing products; prices [30, 10, 20]
project to [10, 20, 30]. -/
theorem C2_sorting (l : List Producto) (c : Criteria) (k : JSNum) :
    (SrcApp.getFilteredProducts l c).Pairwise
      (fun a b => jsNumLe (replacePrice a.Precio_Oferta) (replacePrice b.Precio_Oferta) = true) ∧
    (Part000.getFilteredProducts l c).Pairwise
      (fun a b => jsNumLe (replacePrice a.Precio_Oferta) (replacePrice b.Precio_Oferta) = true) ∧
    (SrcApp.getFilteredProducts l c).filter (fun p => decide (sortKey p = k)) =
      l.filter (fun p => SrcApp.passesFilters c p && decide (sortKey p = k)) ∧
    (Part000.getFilteredProducts l c).filter (fun p => decide (sortKey p = k)) =
      l.filter (fun p => Part000.passesFilters c p && decide (sortKey p = k)) ∧
    SrcApp.getFilteredProducts [p30, p10, p20] cDefault = [p10, p20, p30] ∧
    Part000.getFilteredProducts [p30, p10, p20] cDefault = [p10, p20, p30] := by
  refine ⟨?_, ?_, stable_filter_mergeSort _ l k, stable_filter_mergeSort _ l k, ?_, ?_⟩
  · exact List.sorted_mergeSort prodLe_trans prodLe_total _
  · exact List.sorted_mergeSort prodLe_trans prodLe_total _
  · simp +decide [SrcApp.getFilteredProducts, SrcApp.passesFilters, List.mergeSort,
      List.merge, List.splitInTwo, List.splitAt, List.splitAt.go, prodLe, sortKey,
      replacePrice, stripSol, jsOr0, jsParseFloat, parseUnsigned, expApply, expSigned,
      tokenVal, natOfDigits, fracOfDigits, jsSpace, isDigitChar, jsNumLe, jsNumVal,
      pairLe, jsGt, jsIncludes, isSubOf, isPreOf, jsToLower, hasOffer, p30, p10, p20,
      mkProducto, cDefault]
  · simp +decide [Part000.getFilteredProducts, Part000.passesFilters, List.mergeSort,
      List.merge, List.splitInTwo, List.splitAt, List.splitAt.go, prodLe, sortKey,
      replacePrice, matchPrice, matchPrice.jsMatchNum, matchPrice.tokenAt, stripSol,
      jsOr0, jsParseFloat, parseUnsigned, expApply, expSigned, tokenVal, natOfDigits,
      fracOfDigits, jsSpace, isDigitChar, jsNumLe, jsNumVal, pairLe, jsGt, jsIncludes,
      isSubOf, isPreOf, jsToLower, hasOffer, p30, p10, p20, mkProducto, cDefault]

/-- Claim C3 (confirmed): a product is in the `App.tsx` projector output iff
it is in the raw list and passes every active filter — non-empty nameFilter
demands a case-insensitive substring match on the name, an active
pharmacyFilter demands exact pharmacy equality, the extracted price must not
exceed maxPrice, and offersOnly demands an offer. -/
theorem C3_conjunctive_filters (l : List Producto) (c : Criteria) (p : Producto) :
    p ∈ SrcApp.getFilteredProducts l c ↔
      p ∈ l ∧
      (c.nameFilter ≠ "" → jsIncludes (jsToLower p.Producto) (jsToLower c.nameFilter) = true) ∧
      (c.pharmacyFilter ≠ "" → p.Farmacia = c.pharmacyFilter) ∧
      jsGt (replacePrice p.Precio_Oferta) c.priceFilter = false ∧
      (c.offersFilter = true → hasOffer p = true) := by
  rw [SrcApp.getFilteredProducts, List.mem_mergeSort, List.mem_filter, passes_iff_app]

/-- Claim C4 (confirmed): a product has an offer iff its regularPrice
differs (exact, case-sensitive) from the sentinel `"No disponible"`; with
offersOnly active, a sentinel product is excluded from both projectors'
outputs, and for a non-sentinel product the offers filter does not alter the
filter decision. -/
theorem C4_offer_detection (l : List Producto) (c : Criteria) (p : Producto)
    (h : c.offersFilter = true) :
    (hasOffer p = true ↔ p.Precio_Regular ≠ "No disponible") ∧
    (p.Precio_Regular = "No disponible" →
      p ∉ SrcApp.getFilteredProducts l c ∧ p ∉ Part000.getFilteredProducts l c) ∧
    (p.Precio_Regular ≠ "No disponible" →
      SrcApp.passesFilters c p = SrcApp.passesFilters { c with offersFilter := false } p ∧
      Part000.passesFilters c p = Part000.passesFilters { c with offersFilter := false } p) := by
  refine ⟨by simp [hasOffer, bne_iff_ne], ?_, ?_⟩
  · intro hreg
    have hno : ¬ (hasOffer p = true) := by simp [hasOffer, hreg]
    constructor
    · intro hp
      rw [SrcApp.getFilteredProducts, List.mem_mergeSort, List.mem_filter,
        passes_iff_app] at hp
      exact hno (hp.2.2.2.2 h)
    · intro hp
      rw [Part000.getFilteredProducts, List.mem_mergeSort, List.mem_filter,
        passes_iff_v2] at hp
      exact hno (hp.2.2.2.2 h)
  · intro hreg
    have hyes : hasOffer p = true := by simp [hasOffer, bne_iff_ne, hreg]
    constructor
    · rw [Bool.eq_iff_iff, passes_iff_app, passes_iff_app]
      simp [hyes]
    · rw [Bool.eq_iff_iff, passes_iff_v2, passes_iff_v2]
      simp [hyes]

/-- Witness for C4 at a concrete input: the sentinel product is excluded
when offersOnly is on. -/
theorem C4_offer_detection_witness :
    pSent ∉ SrcApp.getFilteredProducts [pSent] cOffers :=
  ((C4_offer_detection [pSent] cOffers pSent rfl).2.1 rfl).1

/-- Claim C9 (confirmed): in this model the projector is a function of
(raw list, criteria) alone, so two runs on the same pair coincide; moreover
re-projecting its own output changes nothing (the run neither mutates its
input nor depends on hidden state). -/
theorem C9_pure_projector (l : List Producto) (c : Criteria) :
    SrcApp.getFilteredProducts l c = SrcApp.getFilteredProducts l c ∧
    SrcApp.getFilteredProducts (SrcApp.getFilteredProducts l c) c =
      SrcApp.getFilteredProducts l c ∧
    Part000.getFilteredProducts (Part000.getFilteredProducts l c) c =
      Part000.getFilteredProducts l c :=
  ⟨rfl, proj_idem _ l, proj_idem _ l⟩

/-- Claim C10 (confirmed): both projector outputs draw only elements of the
raw list, never exceed the input multiplicity of any product and never
exceed the input length. -/
theorem C10_no_fabrication (l : List Producto) (c : Criteria) :
    (∀ p, p ∈ SrcApp.getFilteredProducts l c → p ∈ l) ∧
    (∀ p, (SrcApp.getFilteredProducts l c).count p ≤ l.count p) ∧
    (SrcApp.getFilteredProducts l c).length ≤ l.length ∧
    (∀ p, p ∈ Part000.getFilteredProducts l c → p ∈ l) ∧
    (∀ p, (Part000.getFilteredProducts l c).count p ≤ l.count p) ∧
    (Part000.getFilteredProducts l c).length ≤ l.length := by
  refine ⟨?_, fun p => proj_count _ l p, ?_, ?_, fun p => proj_count _ l p, ?_⟩
  · intro p hp
    exact (List.mem_filter.mp (List.mem_mergeSort.mp hp)).1
  · rw [SrcApp.getFilteredProducts, List.length_mergeSort]
    exact List.length_filter_le _ l
  · intro p hp
    exact (List.mem_filter.mp (List.mem_mergeSort.mp hp)).1
  · rw [Part000.getFilteredProducts, List.length_mergeSort]
    exact List.length_filter_le _ l

/-- Witness for C10 at a concrete input: membership in the output implies
membership in the raw list. -/
theorem C10_no_fabrication_witness : p10 ∈ [p30, p10, p20] := by
  apply (C10_no_fabrication [p30, p10, p20] cDefault).1 p10
  simp +decide [SrcApp.getFilteredProducts, SrcApp.passesFilters, List.mergeSort,
    List.merge, List.splitInTwo, List.splitAt, List.splitAt.go, prodLe, sortKey,
    replacePrice, stripSol, jsOr0, jsParseFloat, parseUnsigned, expApply, expSigned,
    tokenVal, natOfDigits, fracOfDigits, jsSpace, isDigitChar, jsNumLe, jsNumVal,
    pairLe, jsGt, jsIncludes, isSubOf, isPreOf, jsToLower, hasOffer, p30, p10, p20,
    mkProducto, cDefault]

/-- Claim C5, counterexample: in `src/src/App.tsx` the validation is
`!keyword`, so the whitespace-only keyword `" "` passes validation and a
network request is issued. -/
theorem C5_counterexample :
    jsTrim " " = "" ∧
    (SrcApp.handleSubmit " " state0 (.success (some []))).2 = 1 ∧
    (startFetch state0).isLoading = true ∧ state0.isLoading = false :=
  ⟨rfl, rfl, rfl, rfl⟩

/-- Claim C5 (amended): `part_000` rejects an empty or all-whitespace
keyword synchronously — no request is issued and the state is unchanged;
`App.tsx` rejects only the exactly-empty keyword, and any non-empty keyword
(whitespace-only included) issues a request. -/
theorem C5_whitespace_validation (kw : String) (s : AppState) (o : FetchOutcome)
    (h : jsTrim kw = "") :
    Part000.handleSubmit kw s o = (s, 0) ∧
    (kw = "" → SrcApp.handleSubmit kw s o = (s, 0)) ∧
    (kw ≠ "" → (SrcApp.handleSubmit kw s o).2 = 1) := by
  refine ⟨by simp [Part000.handleSubmit, h], ?_, ?_⟩
  · intro hk
    simp [SrcApp.handleSubmit, hk]
  · intro hk
    simp [SrcApp.handleSubmit, hk]

/-- Witness for C5 at a concrete input: the whitespace-only keyword is
rejected by `part_000` with no state change and no request. -/
theorem C5_whitespace_validation_witness :
    Part000.handleSubmit " " state0 (.success none) = (state0, 0) :=
  (C5_whitespace_validation " " state0 (.success none) rfl).1

/-- Claim C6 (code_bug): on a success body with the product array missing,
`App.tsx` stores the absent field itself (JavaScript `undefined`) as the raw
list instead of the empty list the spec demands — the later
`productos.filter` call would then throw; `part_000` implements the intended
`|| []` fallback, and both variants store a present array exactly, in
order. -/
theorem C6_missing_array_field :
    (SrcApp.handleSubmit "jabon" state0 (.success none)).1.productos = none ∧
    (SrcApp.handleSubmit "jabon" state0 (.success none)).1.productos ≠ some [] ∧
    (∀ s : AppState, (Part000.handleSubmit "jabon" s (.success none)).1.productos = some []) ∧
    (∀ (s : AppState) (dat : List Producto),
      (Part000.handleSubmit "jabon" s (.success (some dat))).1.productos = some dat) ∧
    (∀ (s : AppState) (dat : List Producto),
      (SrcApp.handleSubmit "jabon" s (.success (some dat))).1.productos = some dat) := by
  refine ⟨rfl, by simp +decide [SrcApp.handleSubmit, SrcApp.finishFetch, startFetch, state0],
    ?_, ?_, ?_⟩
  · intro s
    simp +decide [Part000.handleSubmit, Part000.finishFetch, startFetch, jsTrim, jsSpace]
  · intro s dat
    simp +decide [Part000.handleSubmit, Part000.finishFetch, startFetch, jsTrim, jsSpace]
  · intro s dat
    simp +decide [SrcApp.handleSubmit, SrcApp.finishFetch, startFetch]

/-- Claim C7, counterexample: in `src/src/App.tsx` a server failure with
status 500 (no timeout code) produces the generic console message, which
does not carry the status code. -/
theorem C7_counterexample :
    (SrcApp.handleSubmit "jabon" state0
        (.failure { code := none, responseStatus := some 500 })).1.error =
      some "Error al cargar los datos. Revisa la consola." ∧
    jsIncludes "Error al cargar los datos. Revisa la consola." "500" = false := by
  exact ⟨rfl, rfl⟩

/-- Claim C7 (amended): `part_000` classifies a failed fetch as claimed —
timeout code gives the distinct timeout message, a response with a status
gives a message carrying that status code, no response gives the
connectivity message; `App.tsx` only distinguishes timeout from one generic
message without the status.  Both clear the loading flag and issue exactly
one request (no retry). -/
theorem C7_error_classification (kw : String) (s : AppState) (e : AxiosErr)
    (hv : jsTrim kw ≠ "") :
    ((Part000.handleSubmit kw s (.failure e)).1.error = some (Part000.errorMsg e) ∧
     (Part000.handleSubmit kw s (.failure e)).1.isLoading = false ∧
     (Part000.handleSubmit kw s (.failure e)).2 = 1) ∧
    (e.code = some "ECONNABORTED" →
      Part000.errorMsg e =
        "La búsqueda tardó demasiado y fue cancelada (Timeout). Intenta de nuevo.") ∧
    (e.code ≠ some "ECONNABORTED" → ∀ st, e.responseStatus = some st →
      Part000.errorMsg e =
        "Error del servidor (" ++ toString st ++ "). Intenta de nuevo más tarde." ∧
      List.IsInfix (toString st).data (Part000.errorMsg e).data) ∧
    (e.code ≠ some "ECONNABORTED" → e.responseStatus = none →
      Part000.errorMsg e =
        "No se pudo conectar al backend. El servicio puede estar inactivo o tardando mucho.") ∧
    ((SrcApp.handleSubmit kw s (.failure e)).1.error = some (SrcApp.errorMsg e) ∧
     (SrcApp.handleSubmit kw s (.failure e)).1.isLoading = false ∧
     (SrcApp.handleSubmit kw s (.failure e)).2 = 1) ∧
    (e.code = some "ECONNABORTED" →
      SrcApp.errorMsg e = "La búsqueda tardó demasiado y fue cancelada. Intenta de nuevo.") ∧
    (e.code ≠ some "ECONNABORTED" →
      SrcApp.errorMsg e = "Error al cargar los datos. Revisa la consola.") := by
  have hk : kw ≠ "" := fun he => hv (by rw [he]; rfl)
  refine ⟨?_, ?_, ?_, ?_, ?_, ?_, ?_⟩
  · simp [Part000.handleSubmit, Part000.finishFetch, startFetch, hv]
  · intro hc
    simp [Part000.errorMsg, hc]
  · intro hc st hst
    constructor
    · simp [Part000.errorMsg, hc, hst]
    · refine ⟨"Error del servidor (".data, "). Intenta de nuevo más tarde.".data, ?_⟩
      simp [Part000.errorMsg, hc, hst, String.data_append]
  · intro hc hst
    simp [Part000.errorMsg, hc, hst]
  · simp [SrcApp.handleSubmit, SrcApp.finishFetch, startFetch, hk]
  · intro hc
    simp [SrcApp.errorMsg, hc]
  · intro hc
    simp [SrcApp.errorMsg, hc]

/-- Witness for C7 at a concrete input: with no timeout code and status 404,
`part_000` reports the server error carrying the code. -/
theorem C7_error_classification_witness :
    Part000.errorMsg { code := none, responseStatus := some 404 } =
      "Error del servidor (" ++ toString 404 ++ "). Intenta de nuevo más tarde." :=
  ((C7_error_classification "jabon" state0 { code := none, responseStatus := some 404 }
    (by decide)).2.2.1 (by simp) 404 rfl).1

/-- Claim C8 (confirmed): before the call starts both variants clear the raw
results and raise the loading flag, and any failed fetch ends with the
loading flag cleared, an empty raw list and exactly one request issued (no
retry). -/
theorem C8_terminal_errors (kw : String) (s : AppState) (e : AxiosErr)
    (hv : jsTrim kw ≠ "") :
    (startFetch s).productos = some [] ∧
    (startFetch s).isLoading = true ∧
    (startFetch s).error = none ∧
    (SrcApp.handleSubmit kw s (.failure e)).1.isLoading = false ∧
    (SrcApp.handleSubmit kw s (.failure e)).1.productos = some [] ∧
    (SrcApp.handleSubmit kw s (.failure e)).2 = 1 ∧
    (Part000.handleSubmit kw s (.failure e)).1.isLoading = false ∧
    (Part000.handleSubmit kw s (.failure e)).1.productos = some [] ∧
    (Part000.handleSubmit kw s (.failure e)).2 = 1 := by
  have hk : kw ≠ "" := fun he => hv (by rw [he]; rfl)
  refine ⟨rfl, rfl, rfl, ?_, ?_, ?_, ?_, ?_, ?_⟩ <;>
    simp [SrcApp.handleSubmit, SrcApp.finishFetch, Part000.handleSubmit,
      Part000.finishFetch, startFetch, hk, hv]

/-- Witness for C8 at a concrete input: after a failed fetch for "jabon" the
raw list is empty in `App.tsx`. -/
theorem C8_terminal_errors_witness :
    (SrcApp.handleSubmit "jabon" state0
        (.failure { code := none, responseStatus := none })).1.productos = some [] :=
  (C8_terminal_errors "jabon" state0 { code := none, responseStatus := none }
    (by decide)).2.2.2.2.1

/-- Witness for C3 at a concrete input: a product passing every filter is in
the output. -/
theorem C3_conjunctive_filters_witness : p10 ∈ SrcApp.getFilteredProducts [p10] cDefault := by
  apply (C3_conjunctive_filters [p10] cDefault p10).mpr
  refine ⟨by simp, fun h => absurd rfl h, fun h => absurd rfl h, ?_, ?_⟩
  · simp +decide [replacePrice, stripSol, jsOr0, jsParseFloat, parseUnsigned, expApply,
      expSigned, tokenVal, natOfDigits, fracOfDigits, jsSpace, isDigitChar, jsGt,
      p10, mkProducto, cDefault]
  · intro h
    exact absurd h (by decide)

/-- Witness for C9 at a concrete input. -/
theorem C9_pure_projector_witness :
    SrcApp.getFilteredProducts [p10] cDefault = SrcApp.getFilteredProducts [p10] cDefault :=
  (C9_pure_projector [p10] cDefault).1

/-- Witness for C1 at a concrete input: the first-numeric-token reading of
the `part_000` extraction, applied to `"S/ 7"`. -/
theorem C1_extraction_witness : matchPrice "S/ 7" = JSNum.num (specExtractedPrice "S/ 7") :=
  C1_extraction.1 "S/ 7"

/-- Witness for C2 at a concrete input: the documented [30, 10, 20]
projection. -/
theorem C2_sorting_witness :
    SrcApp.getFilteredProducts [p30, p10, p20] cDefault = [p10, p20, p30] :=
  (C2_sorting [] cDefault JSNum.nan).2.2.2.2.1

/-- Witness for C6 at a concrete input: the `part_000` fallback stores the
empty list. -/
theorem C6_missing_array_field_witness :
    (Part000.handleSubmit "jabon" state0 (.success none)).1.productos = some [] :=
  C6_missing_array_field.2.2.1 state0
